import Mathlib

/-
Verification of the bevy_aurora example (src/src/main.rs).

The repository is a single Bevy example: a `setup` startup system that
inserts one 10x10 plane mesh into the mesh store, one fieldless
CustomMaterial into the material store, spawns a mesh entity at
(0, 0.5, 0) and a camera entity at (-2, 2.5, 5) looking at the origin,
plus a `Material` impl whose only override is `fragment_shader`.

Embedding choices:
- Coordinates are rationals: every float literal in the source
  (10.0, 0.5, -2.0, 2.5, 5.0, 0.0, 1.0) is exactly representable and no
  inexact arithmetic occurs in the embedded code.
- Bevy's asset stores (`Assets<T>`) and the entity store reached through
  `Commands` are engine-owned key-value stores; they are embedded as an
  id counter plus an association list, with `add`/`spawn` allocating the
  next id and appending.
- `Transform::looking_at(target, up)` computes a rotation whose forward
  axis is the normalization of `target - translation` and whose up hint
  is `up`. Normalization is the engine's irrational step; the embedded
  rotation stores the unnormalized look direction, so the forward axis
  of the real rotation is a positive scalar multiple of the stored one.
-/

/-- Three-component vector over the rationals, modelling Bevy `Vec3`. -/
structure Vec3 where
  x : ℚ
  y : ℚ
  z : ℚ
deriving DecidableEq

/-- Bevy `Vec3::ZERO`. -/
def Vec3.ZERO : Vec3 := ⟨0, 0, 0⟩

/-- Bevy `Vec3::Y`, the vertical axis. -/
def Vec3.Y : Vec3 := ⟨0, 1, 0⟩

/-- Bevy `Vec3::ONE`. -/
def Vec3.ONE : Vec3 := ⟨1, 1, 1⟩

/-- Componentwise subtraction. -/
def Vec3.sub (a b : Vec3) : Vec3 := ⟨a.x - b.x, a.y - b.y, a.z - b.z⟩

/-- Scalar multiplication. -/
def Vec3.smul (c : ℚ) (v : Vec3) : Vec3 := ⟨c * v.x, c * v.y, c * v.z⟩

/-- Rotation component of a `Transform`.  Bevy stores a quaternion; the
two rotations occurring in the source are the identity (from
`Transform::from_xyz`) and the one produced by `looking_at`, kept here
as the unnormalized look direction together with the up hint. -/
inductive Rotation where
  | IDENTITY : Rotation
  | lookTowards : Vec3 → Vec3 → Rotation
deriving DecidableEq

/-- Direction along which the rotation's forward (local -Z) axis points,
up to the positive scaling the engine's normalization applies.  The
identity rotation leaves forward at -Z. -/
def Rotation.forwardDir : Rotation → Vec3
  | .IDENTITY => ⟨0, 0, -1⟩
  | .lookTowards d _ => d

/-- Up hint the rotation was built with (Y for the identity). -/
def Rotation.upHint : Rotation → Vec3
  | .IDENTITY => ⟨0, 1, 0⟩
  | .lookTowards _ u => u

/-- Bevy `Transform`: translation, rotation, scale. -/
structure Transform where
  translation : Vec3
  rotation : Rotation
  scale : Vec3
deriving DecidableEq

/-- Bevy `Transform::from_xyz`: the given translation, identity
rotation, unit scale. -/
def Transform.from_xyz (x y z : ℚ) : Transform :=
  ⟨⟨x, y, z⟩, Rotation.IDENTITY, Vec3.ONE⟩

/-- Bevy `Transform::looking_at(target, up)`: rotates the transform so
that its forward axis points from the translation toward `target`, with
`up` as the up hint; translation and scale are unchanged. -/
def Transform.looking_at (t : Transform) (target up : Vec3) : Transform :=
  { t with rotation := Rotation.lookTowards (Vec3.sub target t.translation) up }

/-- Bevy `Plane3d`: an infinite plane primitive given by its normal. -/
structure Plane3d where
  normal : Vec3
deriving DecidableEq

/-- Rust `Plane3d::default()`: normal along `Dir3::Y`. -/
def Plane3d.DEFAULT : Plane3d := ⟨Vec3.Y⟩

/-- Bevy `PlaneMeshBuilder`: a plane plus its half extents. -/
structure PlaneMeshBuilder where
  plane : Plane3d
  half_size : ℚ × ℚ
deriving DecidableEq

/-- Rust `Plane3d::mesh()`: builder with default half size 0.5. -/
def Plane3d.mesh (p : Plane3d) : PlaneMeshBuilder := ⟨p, (1/2, 1/2)⟩

/-- Rust `PlaneMeshBuilder::size(width, height)`: sets the half size to
half the given full extents. -/
def PlaneMeshBuilder.size (b : PlaneMeshBuilder) (w h : ℚ) : PlaneMeshBuilder :=
  { b with half_size := (w / 2, h / 2) }

/-- Geometry record held in the mesh store: the plane's normal and the
full width and height of the built plane mesh. -/
structure Mesh where
  normal : Vec3
  width : ℚ
  height : ℚ
deriving DecidableEq

/-- Building the `Mesh` from the builder (the `Into<Mesh>` conversion
`Assets::add` applies): full extents are twice the half extents. -/
def PlaneMeshBuilder.build (b : PlaneMeshBuilder) : Mesh :=
  ⟨b.plane.normal, b.half_size.1 * 2, b.half_size.2 * 2⟩

/-- The plane geometry `setup` inserts:
`Plane3d::default().mesh().size(10.0, 10.0)`. -/
def setupPlaneMesh : Mesh := ((Plane3d.DEFAULT.mesh).size 10 10).build

/-- Bevy `ShaderRef`: either the engine default shader or a logical
asset path (the `&str -> ShaderRef` conversion used in the source). -/
inductive ShaderRef where
  | Default : ShaderRef
  | Path : String → ShaderRef
deriving DecidableEq

/-- Rust `SHADER_ASSET_PATH`. -/
def SHADER_ASSET_PATH : String := "shaders/animate_shader.wgsl"

/-- Rust `struct CustomMaterial {}`: a fieldless material descriptor. -/
structure CustomMaterial where
deriving DecidableEq

/-- Field list of the `CustomMaterial` struct declaration (it has
none); the `AsBindGroup` derive reads exactly these fields. -/
def CustomMaterial.declaredFields : List String := []

/-- Bindings contributed by the `AsBindGroup` derive: one binding per
annotated struct field. -/
def bindGroupBindingsOf (fields : List String) : List String := fields

/-- Rust `CustomMaterial::fragment_shader()` (the one `Material`
override): returns `SHADER_ASSET_PATH.into()`.  The Rust function takes
no arguments; the `Unit` argument records one invocation. -/
def CustomMaterial.fragment_shader : Unit → ShaderRef :=
  fun _ => ShaderRef.Path SHADER_ASSET_PATH

/-- Alpha blending mode of a material; `Solid` models Bevy's default
(fully opaque) variant, `Blended` the transparent ones. -/
inductive AlphaMode where
  | Solid : AlphaMode
  | Blended : AlphaMode
deriving DecidableEq

/-- Queries of the Bevy `Material` trait relevant to this material. -/
structure MaterialImpl where
  vertex_shader : ShaderRef
  fragment_shader : ShaderRef
  alpha_mode : AlphaMode
deriving DecidableEq

/-- Defaults the `Material` trait provides for unoverridden methods:
default shaders, opaque alpha mode. -/
def materialTraitDefaults : MaterialImpl :=
  ⟨ShaderRef.Default, ShaderRef.Default, AlphaMode.Solid⟩

/-- The `impl Material for CustomMaterial` block: it overrides
`fragment_shader` alone, so every other query keeps the trait default. -/
def CustomMaterial.materialImpl : MaterialImpl :=
  { materialTraitDefaults with fragment_shader := CustomMaterial.fragment_shader () }

/-- Bevy `Assets<T>`: engine-owned asset store, embedded as an id
counter plus an association list from allocated ids to assets. -/
structure Assets (α : Type) where
  nextId : Nat
  entries : List (Nat × α)
deriving DecidableEq

/-- Rust `Assets::add`: allocates the next id, appends the asset, and
returns the new store together with the handle (the allocated id). -/
def Assets.add {α : Type} (s : Assets α) (a : α) : Assets α × Nat :=
  (⟨s.nextId + 1, s.entries ++ [(s.nextId, a)]⟩, s.nextId)

/-- Entity records the source spawns: the mesh entity bundles a
geometry handle (`Mesh3d`), a material handle (`MeshMaterial3d`) and a
transform; the camera entity bundles `Camera3d::default()` (whose
fields the source never sets) and a transform. -/
inductive EntityRecord where
  | meshEntity : Nat → Nat → Transform → EntityRecord
  | cameraEntity : Transform → EntityRecord
deriving DecidableEq

/-- True exactly on mesh entities. -/
def EntityRecord.isMeshEntity : EntityRecord → Bool
  | .meshEntity _ _ _ => true
  | .cameraEntity _ => false

/-- True exactly on camera entities. -/
def EntityRecord.isCameraEntity : EntityRecord → Bool
  | .meshEntity _ _ _ => false
  | .cameraEntity _ => true

/-- Entity store reached through `Commands`: an id counter plus an
association list from entity ids to records. -/
structure World where
  nextEntity : Nat
  entities : List (Nat × EntityRecord)
deriving DecidableEq

/-- Rust `commands.spawn(bundle)`: allocates the next entity id and
appends the record. -/
def World.spawn (w : World) (r : EntityRecord) : World :=
  ⟨w.nextEntity + 1, w.entities ++ [(w.nextEntity, r)]⟩

/-- The three engine-owned stores `setup` takes mutable access to:
`ResMut<Assets<Mesh>>`, `ResMut<Assets<CustomMaterial>>`, `Commands`. -/
structure EngineState where
  meshes : Assets Mesh
  materials : Assets CustomMaterial
  world : World
deriving DecidableEq

/-- Engine state with all three stores empty (process start). -/
def emptyEngineState : EngineState := ⟨⟨0, []⟩, ⟨0, []⟩, ⟨0, []⟩⟩

/-- Rust `setup`: adds the 10x10 plane to the mesh store, adds one
`CustomMaterial {}` to the material store, spawns the mesh entity with
`Transform::from_xyz(0.0, 0.5, 0.0)`, then spawns the camera entity
with `Transform::from_xyz(-2.0, 2.5, 5.0).looking_at(Vec3::ZERO,
Vec3::Y)`. -/
def setup (s : EngineState) : EngineState :=
  let meshAdd := s.meshes.add setupPlaneMesh
  let matAdd := s.materials.add {}
  let world1 := s.world.spawn
    (EntityRecord.meshEntity meshAdd.2 matAdd.2 (Transform.from_xyz 0 (1/2) 0))
  let world2 := world1.spawn
    (EntityRecord.cameraEntity ((Transform.from_xyz (-2) (5/2) 5).looking_at Vec3.ZERO Vec3.Y))
  ⟨meshAdd.1, matAdd.1, world2⟩

/-- Store grows by insertion only: the new entry list is the old one
followed by some appended tail. -/
def storeExtends {α : Type} (old new : List (Nat × α)) : Prop :=
  ∃ tail, new = old ++ tail

/-- Helper: one run of `setup` only appends to each of the three
stores. -/
lemma setup_stores_extend (s : EngineState) :
    storeExtends s.meshes.entries (setup s).meshes.entries ∧
    storeExtends s.materials.entries (setup s).materials.entries ∧
    storeExtends s.world.entities (setup s).world.entities := by
  refine ⟨⟨[(s.meshes.nextId, setupPlaneMesh)], rfl⟩,
    ⟨[(s.materials.nextId, {})], rfl⟩,
    ⟨[(s.world.nextEntity,
        EntityRecord.meshEntity s.meshes.nextId s.materials.nextId (Transform.from_xyz 0 (1/2) 0)),
      (s.world.nextEntity + 1,
        EntityRecord.cameraEntity ((Transform.from_xyz (-2) (5/2) 5).looking_at Vec3.ZERO Vec3.Y))],
      ?_⟩⟩
  simp [setup, World.spawn, Assets.add]

/-- C1: the fragment-shader query is deterministic and idempotent,
always returning the fixed logical path, and after `setup` runs from
empty stores the material store holds exactly one descriptor. -/
theorem fragment_shader_fixed_and_single_material :
    (∀ a b : Unit, CustomMaterial.fragment_shader a = CustomMaterial.fragment_shader b) ∧
    CustomMaterial.fragment_shader () = ShaderRef.Path SHADER_ASSET_PATH ∧
    (setup emptyEngineState).materials.entries.length = 1 := by
  refine ⟨fun a b => rfl, rfl, rfl⟩

/-- C2: from empty stores, one run of `setup` leaves exactly one mesh
entity and exactly one camera entity (two entities in total) in the
entity store. -/
theorem setup_spawns_one_mesh_one_camera :
    ((setup emptyEngineState).world.entities.countP (fun p => p.2.isMeshEntity)) = 1 ∧
    ((setup emptyEngineState).world.entities.countP (fun p => p.2.isCameraEntity)) = 1 ∧
    (setup emptyEngineState).world.entities.length = 2 := by
  decide

/-- C3: after `setup` runs from empty stores, the unique mesh entity's
transform has translation (0, 0.5, 0), identity rotation and unit
scale. -/
theorem mesh_entity_transform_origin_half_up :
    (setup emptyEngineState).world.entities.filter (fun p => p.2.isMeshEntity) =
      [(0, EntityRecord.meshEntity 0 0 ⟨⟨0, 1/2, 0⟩, Rotation.IDENTITY, Vec3.ONE⟩)] := by
  simp [setup, World.spawn, Assets.add, emptyEngineState,
    EntityRecord.isMeshEntity, Transform.from_xyz]

/-- C4: after `setup` runs from empty stores, the unique camera
entity's transform has translation (-2, 2.5, 5), its forward direction
is a positive multiple of the vector from that position to the origin,
and its up hint is the vertical axis. -/
theorem camera_transform_looks_at_origin :
    ∃ t : Transform,
      (setup emptyEngineState).world.entities.filter (fun p => p.2.isCameraEntity) =
        [(1, EntityRecord.cameraEntity t)] ∧
      t.translation = ⟨-2, 5/2, 5⟩ ∧
      (∃ c : ℚ, 0 < c ∧
        t.rotation.forwardDir = Vec3.smul c (Vec3.sub Vec3.ZERO t.translation)) ∧
      t.rotation.upHint = Vec3.Y := by
  refine ⟨(Transform.from_xyz (-2) (5/2) 5).looking_at Vec3.ZERO Vec3.Y,
    ?_, ?_, ⟨1, by norm_num, ?_⟩, ?_⟩
  · simp [setup, World.spawn, Assets.add, emptyEngineState,
      EntityRecord.isCameraEntity, Transform.from_xyz, Transform.looking_at]
  · simp [Transform.looking_at, Transform.from_xyz]
  · simp [Transform.looking_at, Transform.from_xyz, Rotation.forwardDir,
      Vec3.smul, Vec3.sub, Vec3.ZERO]
  · simp [Transform.looking_at, Transform.from_xyz, Rotation.upHint]

/-- C5: from any initial state, `setup` appends exactly one plane
geometry of full size 10 by 10 (normal along Y) to the mesh store, and
the spawned mesh entity carries the handle returned by that insertion. -/
theorem setup_inserts_plane_10x10 (s : EngineState) :
    (setup s).meshes.entries = s.meshes.entries ++ [(s.meshes.nextId, setupPlaneMesh)] ∧
    setupPlaneMesh.width = 10 ∧ setupPlaneMesh.height = 10 ∧ setupPlaneMesh.normal = Vec3.Y ∧
    (s.world.nextEntity,
      EntityRecord.meshEntity (s.meshes.add setupPlaneMesh).2 (s.materials.add {}).2
        (Transform.from_xyz 0 (1/2) 0)) ∈ (setup s).world.entities := by
  refine ⟨rfl, ?_, ?_, rfl, ?_⟩
  · norm_num [setupPlaneMesh, PlaneMeshBuilder.build, PlaneMeshBuilder.size,
      Plane3d.mesh, Plane3d.DEFAULT]
  · norm_num [setupPlaneMesh, PlaneMeshBuilder.build, PlaneMeshBuilder.size,
      Plane3d.mesh, Plane3d.DEFAULT]
  · simp [setup, World.spawn, Assets.add]

/-- Witness for C5 at the empty engine state. -/
theorem setup_inserts_plane_10x10_wit :
    (setup emptyEngineState).meshes.entries =
      emptyEngineState.meshes.entries ++ [(emptyEngineState.meshes.nextId, setupPlaneMesh)] ∧
    setupPlaneMesh.width = 10 ∧ setupPlaneMesh.height = 10 ∧ setupPlaneMesh.normal = Vec3.Y ∧
    (emptyEngineState.world.nextEntity,
      EntityRecord.meshEntity (emptyEngineState.meshes.add setupPlaneMesh).2
        (emptyEngineState.materials.add {}).2
        (Transform.from_xyz 0 (1/2) 0)) ∈ (setup emptyEngineState).world.entities :=
  setup_inserts_plane_10x10 emptyEngineState

/-- C6: `setup` is a total function of the engine state (no error path)
and every mutation it performs is an in-memory insertion: each store's
entry list after the run is the one before with entries appended. -/
theorem setup_no_error_insertion_only (s : EngineState) :
    storeExtends s.meshes.entries (setup s).meshes.entries ∧
    storeExtends s.materials.entries (setup s).materials.entries ∧
    storeExtends s.world.entities (setup s).world.entities :=
  setup_stores_extend s

/-- Witness for C6 at the empty engine state. -/
theorem setup_no_error_insertion_only_wit :
    storeExtends emptyEngineState.meshes.entries (setup emptyEngineState).meshes.entries ∧
    storeExtends emptyEngineState.materials.entries (setup emptyEngineState).materials.entries ∧
    storeExtends emptyEngineState.world.entities (setup emptyEngineState).world.entities :=
  setup_no_error_insertion_only emptyEngineState

/-- C7 counterexample: `setup` does not perform exactly one
entity-creation mutation of the entity store: from empty stores the
entity count rises by two (mesh entity and camera entity), not one. -/
theorem setup_single_spawn_counterexample :
    ¬ ((setup emptyEngineState).world.entities.length =
        emptyEngineState.world.entities.length + 1) := by
  decide

/-- C7 amended: a single run of `setup` performs exactly one geometry
insertion, exactly one material insertion, and exactly two
entity-creation mutations of the entity store. -/
theorem setup_store_mutation_counts (s : EngineState) :
    (setup s).meshes.entries.length = s.meshes.entries.length + 1 ∧
    (setup s).materials.entries.length = s.materials.entries.length + 1 ∧
    (setup s).world.entities.length = s.world.entities.length + 2 := by
  refine ⟨?_, ?_, ?_⟩ <;> simp [setup, Assets.add, World.spawn]

/-- Witness for the amended C7 at the empty engine state. -/
theorem setup_store_mutation_counts_wit :
    (setup emptyEngineState).meshes.entries.length =
      emptyEngineState.meshes.entries.length + 1 ∧
    (setup emptyEngineState).materials.entries.length =
      emptyEngineState.materials.entries.length + 1 ∧
    (setup emptyEngineState).world.entities.length =
      emptyEngineState.world.entities.length + 2 :=
  setup_store_mutation_counts emptyEngineState

/-- C8: a second run of `setup` neither mutates nor removes anything
the first run created: each store's entries after the first run are an
unchanged initial segment of its entries after the second run. -/
theorem second_setup_preserves_first_run (s : EngineState) :
    storeExtends (setup s).meshes.entries (setup (setup s)).meshes.entries ∧
    storeExtends (setup s).materials.entries (setup (setup s)).materials.entries ∧
    storeExtends (setup s).world.entities (setup (setup s)).world.entities :=
  setup_stores_extend (setup s)

/-- Witness for C8 at the empty engine state. -/
theorem second_setup_preserves_first_run_wit :
    storeExtends (setup emptyEngineState).meshes.entries
      (setup (setup emptyEngineState)).meshes.entries ∧
    storeExtends (setup emptyEngineState).materials.entries
      (setup (setup emptyEngineState)).materials.entries ∧
    storeExtends (setup emptyEngineState).world.entities
      (setup (setup emptyEngineState)).world.entities :=
  second_setup_preserves_first_run emptyEngineState

/-- C9: `setup` is deterministic: equal initial states of the three
stores yield equal final states. -/
theorem setup_deterministic (s t : EngineState) (h : s = t) : setup s = setup t := by
  rw [h]

/-- Witness for C9 at the empty engine state. -/
theorem setup_deterministic_wit : setup emptyEngineState = setup emptyEngineState :=
  setup_deterministic emptyEngineState emptyEngineState rfl

/-- C10: the material implementation overrides the fragment shader
alone: its fragment shader is the fixed path, its vertex shader and
alpha mode equal the trait defaults, and the fieldless descriptor
contributes no bind-group fields. -/
theorem custom_material_overrides_fragment_only :
    CustomMaterial.materialImpl.fragment_shader = ShaderRef.Path SHADER_ASSET_PATH ∧
    CustomMaterial.materialImpl.vertex_shader = materialTraitDefaults.vertex_shader ∧
    CustomMaterial.materialImpl.alpha_mode = materialTraitDefaults.alpha_mode ∧
    CustomMaterial.declaredFields = [] ∧
    bindGroupBindingsOf CustomMaterial.declaredFields = [] :=
  ⟨rfl, rfl, rfl, rfl, rfl⟩
